import Mathlib

/-!
Verification of the thoughtlog-lambda core: the entry-creation orchestrator
(`src/services/thoughtLogService.ts`), the DynamoDB-backed idempotency ledger
(`src/services/idempotencyService.ts`), the date/format utilities
(`src/utils/date.ts`, `src/utils/format.ts`) and the voice-comment refiner
(`src/services/voiceCommentRefiner.ts`), shallowly embedded in Lean.

Modelling conventions:
* Timestamps are epoch milliseconds (`Nat`); the host's ISO-8601 parsing by the
  JavaScript `Date` constructor is outside the embedding, so `captured_at`
  carries the already-parsed millisecond value.  The `getUTC*` accessors of a
  JavaScript `Date` are modelled by `civilFromDays` (the standard proleptic
  Gregorian conversion that ECMAScript specifies), valid for times at or after
  the epoch, which covers every timestamp the claims mention.
* External collaborators (auth provider, GitHub client, SQS queue, the DynamoDB
  wire protocol) are an explicit environment `Env` that fixes each call's
  result; the ledger's table is explicit state (`Store`, an association list
  where the most recent binding of a key shadows older ones, matching
  first-match lookup).
* SHA-256 (from node:crypto, external) is modelled as an opaque injective
  fingerprint: `payloadHash` returns the canonical content itself, since only
  equality and inequality of fingerprints matter to the orchestrator.
* Orchestrator-level calls are logged in a trace of `Event`s so that ordering
  and absence of calls can be stated.
-/

namespace ThoughtLog

/-- Input payload of `createEntry` (src/types.ts `Payload`); `captured_at` in
epoch milliseconds (see module conventions). -/
structure Payload where
  request_id : Option String := none
  captured_at : Option Nat := none
  raw : Option String := none
  kind : Option String := none
  labels : Option (List String) := none
  source : Option String := none
deriving Repr, DecidableEq

/-- src/types.ts `GitHubIssue`. -/
structure GitHubIssue where
  number : Nat
  html_url : Option String := none
  title : Option String := none
deriving Repr, DecidableEq

/-- src/types.ts `GitHubComment`. -/
structure GitHubComment where
  id : Nat
  body : Option String := none
deriving Repr, DecidableEq

/-- src/types.ts `IdempotencyItem`, plus the attributes the ledger writes
(`error`, `created_at`, `ttl`); an absent DynamoDB attribute is `none`. -/
structure IdemItem where
  status : String := ""
  payload_hash : Option String := none
  issue_number : Option Nat := none
  issue_url : Option String := none
  comment_id : Option Nat := none
  error : Option String := none
  created_at : Option Nat := none
  ttl : Option Nat := none
deriving Repr, DecidableEq

/-- The `body` object inside src/types.ts `IdempotencyResult`. -/
structure IdemBody where
  ok : Bool := false
  error : Option String := none
  idempotent : Option Bool := none
  issue_number : Option Nat := none
  issue_url : Option String := none
  comment_id : Option Nat := none
  status : Option String := none
deriving Repr, DecidableEq, Inhabited

/-- src/types.ts `IdempotencyResult`. -/
structure IdempotencyResult where
  enabled : Bool
  claimed : Bool
  statusCode : Option Nat := none
  body : Option IdemBody := none
deriving Repr, DecidableEq, Inhabited

-- ── String primitives, kernel-computable ──────────────────────────────────────

/-- Leading-whitespace removal on characters (JavaScript `trimStart`). -/
def trimLeftChars : List Char → List Char
  | [] => []
  | c :: cs => if c.isWhitespace then trimLeftChars cs else c :: cs

/-- Trailing-whitespace removal on characters (JavaScript `trimEnd`). -/
def trimRightChars (l : List Char) : List Char :=
  (trimLeftChars l.reverse).reverse

/-- JavaScript `String.prototype.trim`. -/
def strTrim (s : String) : String :=
  String.mk (trimRightChars (trimLeftChars s.data))

/-- JavaScript `String.prototype.trimEnd`. -/
def strTrimRight (s : String) : String :=
  String.mk (trimRightChars s.data)

/-- JavaScript `String.prototype.slice(0, n)` (code units modelled as
characters). -/
def strTake (s : String) (n : Nat) : String :=
  String.mk (s.data.take n)

/-- JavaScript `String.prototype.split(sep)` for a one-character separator
(`"".split(",")` is `[""]`). -/
def splitOnChar (sep : Char) : List Char → List (List Char)
  | [] => [[]]
  | c :: cs =>
      match splitOnChar sep cs with
      | [] => if c = sep then [[], [c]] else [[c]]
      | h :: t => if c = sep then [] :: h :: t else (c :: h) :: t

/-- `Array.prototype.join(",")`. -/
def joinComma : List String → String
  | [] => ""
  | [x] => x
  | x :: xs => x ++ "," ++ joinComma xs

/-- The ledger table: request_id keyed items, newest binding first. -/
def Store := List (String × IdemItem)

instance : DecidableEq Store := inferInstanceAs (DecidableEq (List (String × IdemItem)))

/-- First-match lookup, i.e. `List.lookup` with String equality. -/
def Store.lookup (store : Store) (rid : String) : Option IdemItem :=
  List.lookup rid store

-- ── src/utils/date.ts ─────────────────────────────────────────────────────────

/-- UTC offset in milliseconds for JST (UTC+9) — src/utils/date.ts. -/
def JST_OFFSET_MS : Nat := 9 * 60 * 60 * 1000

/-- Proleptic Gregorian date (year, month, day) of a day count since
1970-01-01, modelling the JavaScript `Date.getUTCFullYear/Month/Date`
accessors for nonnegative times. -/
def civilFromDays (z : Nat) : Nat × Nat × Nat :=
  let zz := z + 719468
  let era := zz / 146097
  let doe := zz % 146097
  let yoe := (doe - doe / 1460 + doe / 36524 - doe / 146096) / 365
  let y := yoe + era * 400
  let doy := doe - (365 * yoe + yoe / 4 - yoe / 100)
  let mp := (5 * doy + 2) / 153
  let d := doy - (153 * mp + 2) / 5 + 1
  let m := if mp < 10 then mp + 3 else mp - 9
  (if m ≤ 2 then y + 1 else y, m, d)

/-- `String(n).padStart(2, "0")`. -/
def pad2 (n : Nat) : String :=
  if n < 10 then "0" ++ toString n else toString n

/-- The `YYYY-MM-DD` key of a JST-shifted millisecond timestamp. -/
def dateKeyOfJstMs (jstMs : Nat) : String :=
  let ymd := civilFromDays (jstMs / 86400000)
  toString ymd.1 ++ "-" ++ pad2 ymd.2.1 ++ "-" ++ pad2 ymd.2.2

/-- src/utils/date.ts `getDateKeyJst`: the YYYY-MM-DD date key in JST (UTC+9)
of `captured_at`, falling back to the current time `now`. -/
def getDateKeyJst (payload : Payload) (now : Nat) : String :=
  let captured := payload.captured_at.getD now
  dateKeyOfJstMs (captured + JST_OFFSET_MS)

-- ── src/utils/format.ts ───────────────────────────────────────────────────────

/-- src/utils/format.ts `parseLabels`: trimmed nonempty CSV defaults, then
trimmed nonempty payload labels, deduplicated keeping first occurrence
(JavaScript `new Set` insertion order). -/
def parseLabels (defaultLabelsCsv : String) (payloadLabels : Option (List String)) :
    List String :=
  let base := ((splitOnChar ',' defaultLabelsCsv.data).map (fun l => strTrim (String.mk l))).filter (· ≠ "")
  let extra := ((payloadLabels.getD []).map strTrim).filter (· ≠ "")
  (base ++ extra).foldl (fun acc x => if x ∈ acc then acc else acc ++ [x]) []

/-- src/utils/format.ts `formatEntry`: Markdown with a `## HH:MM` JST time
heading, an optional `**[kind]** ` tag and the trimmed raw text. -/
def formatEntry (payload : Payload) (now : Nat) : String :=
  let jst := payload.captured_at.getD now + JST_OFFSET_MS
  let hh := pad2 (jst / 3600000 % 24)
  let mi := pad2 (jst / 60000 % 60)
  let raw := strTrim (payload.raw.getD "")
  let kind := strTrim (payload.kind.getD "")
  let kindTag := if kind ≠ "" then "**[" ++ kind ++ "]** " else ""
  "## " ++ hh ++ ":" ++ mi ++ "\n" ++ kindTag ++ raw ++ "\n"

/-- Models the SHA-256 content fingerprint of
`JSON.stringify(\x7bdateKey, entry, labels\x7d)` (node:crypto, external to the
repository): the canonical content stands for its own digest, so fingerprints
are equal exactly when the canonicalised content is equal. -/
def payloadHash (dateKey entry : String) (labels : List String) : String :=
  "sha256:" ++ dateKey ++ "|" ++ entry ++ "|" ++ joinComma labels

-- ── src/services/idempotencyService.ts ────────────────────────────────────────

/-- JavaScript truthiness of an optional string attribute (absent or empty is
falsy). -/
def strOptTruthy : Option String → Bool
  | none => false
  | some s => s ≠ ""

/-- The guard `item.payload_hash && item.payload_hash !== payloadHash` of
`DynamoDBIdempotencyService.claim`. -/
def hashMismatch (stored : Option String) (h : String) : Bool :=
  match stored with
  | none => false
  | some ph => ph ≠ "" && ph ≠ h

/-- `DynamoDBIdempotencyService.claim`, conflict path (lines 47–69): the
result computed from the record the re-read `GetCommand` returned (`none`
models the record vanishing between the failed conditional put and the
re-read). -/
def claimConflict (item? : Option IdemItem) (h : String) : IdempotencyResult :=
  match item? with
  | none =>
      { enabled := true, claimed := false, statusCode := some 409,
        body := some { ok := false, error := some "idempotency_race_retry" } }
  | some item =>
      if hashMismatch item.payload_hash h then
        { enabled := true, claimed := false, statusCode := some 409,
          body := some { ok := false,
                         error := some "request_id_reused_with_different_payload" } }
      else if item.status = "done" then
        { enabled := true, claimed := false, statusCode := some 200,
          body := some { ok := true, idempotent := some true,
                         issue_number := item.issue_number,
                         issue_url := item.issue_url,
                         comment_id := item.comment_id } }
      else
        { enabled := true, claimed := false, statusCode := some 202,
          body := some { ok := true, idempotent := some true,
                         status := some (if item.status = "" then "processing"
                                         else item.status) } }

/-- `DynamoDBIdempotencyService.claim`: disabled passthrough when no table is
configured, otherwise an atomic insert-if-absent of a `processing` record; on
conflict the sequential re-read finds the existing record and
`claimConflict` decides the outcome. -/
def claimOp (tableName : Option String) (ttlDays now : Nat) (store : Store)
    (rid h : String) : IdempotencyResult × Store :=
  match tableName with
  | none => ({ enabled := false, claimed := true }, store)
  | some _ =>
      match store.lookup rid with
      | none =>
          let item : IdemItem :=
            { status := "processing", payload_hash := some h,
              created_at := some now, ttl := some (now + ttlDays * 24 * 60 * 60) }
          ({ enabled := true, claimed := true }, (rid, item) :: store)
      | some item => (claimConflict (some item) h, store)

/-- The record an unconditioned DynamoDB `UpdateCommand` starts from: the
existing item, or a fresh one with no attributes (upsert semantics). -/
def upsertBase (store : Store) (rid : String) : IdemItem :=
  match store.lookup rid with
  | some it => it
  | none => {}

/-- `DynamoDBIdempotencyService.markDone`: no-op when disabled, else upserts
`status="done"` and the result fields, leaving other attributes intact. -/
def markDoneOp (tableName : Option String) (store : Store) (rid : String)
    (n : Nat) (u : String) (c : Nat) : Store :=
  match tableName with
  | none => store
  | some _ =>
      (rid, { upsertBase store rid with
                status := "done", issue_number := some n,
                issue_url := some u, comment_id := some c }) :: store

/-- `DynamoDBIdempotencyService.markFailed`: no-op when disabled; upserts
`status="failed"` and the error truncated to 900 characters
(`String(errMsg).slice(0, 900)`). A failing write (`writeOk = false`) is
swallowed by the `catch` in the source, so it leaves the store unchanged and
surfaces nothing. -/
def markFailedOp (tableName : Option String) (writeOk : Bool) (store : Store)
    (rid msg : String) : Store :=
  match tableName with
  | none => store
  | some _ =>
      if writeOk then
        (rid, { upsertBase store rid with
                  status := "failed", error := some (strTake msg 900) }) :: store
      else store

-- ── src/services/thoughtLogService.ts ─────────────────────────────────────────

/-- Orchestrator-level calls, recorded when the call is attempted. -/
inductive Event where
  | claim | auth | findIssue | createIssue | getIssue | addComment
  | markDone | sendMessage | markFailed
deriving Repr, DecidableEq

/-- Configuration of `ThoughtLogService` plus the wiring the container
injects: the ledger's table name (absent = idempotency disabled) and whether
an SQS queue service was provided. -/
structure ThoughtLogConfig where
  owner : String := "owner"
  repo : String := "repo"
  defaultLabels : String := ""
  tableName : Option String := none
  ttlDays : Nat := 14
  queueConfigured : Bool := false
deriving Repr, DecidableEq

instance {ε α : Type} [DecidableEq ε] [DecidableEq α] : DecidableEq (Except ε α) :=
  fun x y =>
    match x, y with
    | .error a, .error b =>
        if h : a = b then isTrue (by rw [h])
        else isFalse (by intro hc; cases hc; exact h rfl)
    | .error _, .ok _ => isFalse (by intro hc; cases hc)
    | .ok _, .error _ => isFalse (by intro hc; cases hc)
    | .ok a, .ok b =>
        if h : a = b then isTrue (by rw [h])
        else isFalse (by intro hc; cases hc; exact h rfl)

/-- Results of the external collaborators for one request, plus whether the
ledger's own writes go through.  `claimFails` models the DynamoDB client
throwing from `claim` itself (propagated uncaught by the orchestrator);
`markDone` is not given a failure mode (its failure is not needed by any
claim); `queueFails` models `sendMessage` rejecting — the orchestrator
catches and only logs it, so it has no observable effect. -/
structure Env where
  claimFails : Option String := none
  tokenResult : Except String String := .ok "tok"
  findResult : Except String (Option GitHubIssue) := .ok none
  createResult : Except String GitHubIssue := .ok {number := 0}
  getIssueResult : Except String GitHubIssue := .ok {number := 0}
  addCommentResult : Except String GitHubComment := .ok {id := 0}
  markFailedOk : Bool := true
  queueFails : Bool := false
deriving Repr, DecidableEq

/-- Outcome union of `createEntry` (src/services/thoughtLogService.ts). -/
inductive CreateEntryOutcome where
  | created (date : String) (issue_number : Nat) (issue_url : String)
      (comment_id : Nat)
  | idempotent (statusCode : Nat) (body : IdemBody)
deriving Repr, DecidableEq

/-- Find-or-create-or-refetch of the daily issue (`createEntry` lines 59–64):
a found issue with a falsy `html_url` is re-fetched in full. -/
def issueStep (found : Option GitHubIssue) (env : Env) :
    Except String GitHubIssue × List Event :=
  match found with
  | none =>
      match env.createResult with
      | .error e => (.error e, [Event.createIssue])
      | .ok issue => (.ok issue, [Event.createIssue])
  | some issue =>
      if strOptTruthy issue.html_url then (.ok issue, [])
      else
        match env.getIssueResult with
        | .error e => (.error e, [Event.getIssue])
        | .ok issue2 => (.ok issue2, [Event.getIssue])

/-- The `try` block of `createEntry` up to `addComment` (lines 57–68):
credential issuance, issue find/create/fetch, comment creation.  Returns the
issue and comment on success, the first error otherwise, plus the calls
attempted. -/
def runDownstream (env : Env) :
    Except String (GitHubIssue × GitHubComment) × List Event :=
  match env.tokenResult with
  | .error e => (.error e, [Event.auth])
  | .ok _ =>
      match env.findResult with
      | .error e => (.error e, [Event.auth, Event.findIssue])
      | .ok found =>
          match issueStep found env with
          | (.error e, evs) => (.error e, Event.auth :: Event.findIssue :: evs)
          | (.ok issue, evs) =>
              match env.addCommentResult with
              | .error e =>
                  (.error e,
                   (Event.auth :: Event.findIssue :: evs) ++ [Event.addComment])
              | .ok comment =>
                  (.ok (issue, comment),
                   (Event.auth :: Event.findIssue :: evs) ++ [Event.addComment])

/-- `ThoughtLogService.createEntry`: validation, content computation, ledger
claim, downstream work, `markDone`, best-effort voice enqueue; on a downstream
failure a best-effort `markFailed` and a rethrow of the original error.  The
source's non-null assertions `idem.statusCode!` / `idem.body!` /
`issue.html_url!` are modelled with `Option.getD`. -/
def createEntry (cfg : ThoughtLogConfig) (env : Env) (now : Nat) (store : Store)
    (payload : Payload) : Except String CreateEntryOutcome × List Event × Store :=
  let requestId := strTrim (payload.request_id.getD "")
  if requestId = "" then
    (.error "request_id must be a non-empty string", [], store)
  else
    let dateKey := getDateKeyJst payload now
    let labels := parseLabels cfg.defaultLabels payload.labels
    let entry := formatEntry payload now
    let h := payloadHash dateKey entry labels
    match cfg.tableName, env.claimFails with
    | some _, some msg => (.error msg, [Event.claim], store)
    | _, _ =>
      let claimed := claimOp cfg.tableName cfg.ttlDays now store requestId h
      let idem := claimed.1
      let store1 := claimed.2
      if idem.enabled && !idem.claimed then
        (.ok (.idempotent (idem.statusCode.getD 0) (idem.body.getD default)),
         [Event.claim], store1)
      else
        match runDownstream env with
        | (.error msg, evs) =>
            (.error msg, (Event.claim :: evs) ++ [Event.markFailed],
             markFailedOp cfg.tableName env.markFailedOk store1 requestId msg)
        | (.ok (issue, comment), evs) =>
            let store2 := markDoneOp cfg.tableName store1 requestId issue.number
              (issue.html_url.getD "") comment.id
            let queueEvs :=
              if payload.source == some "voice" && cfg.queueConfigured then
                [Event.sendMessage]
              else []
            (.ok (.created dateKey issue.number (issue.html_url.getD "") comment.id),
             ((Event.claim :: evs) ++ [Event.markDone]) ++ queueEvs, store2)

-- ── src/services/voiceCommentRefiner.ts ───────────────────────────────────────

/-- Whether a body starts with the `## HH:MM\n` header the regular expression
of `parseTimestampHeader` matches. -/
def matchesTimestampHeader : List Char → Bool
  | '#' :: '#' :: ' ' :: a :: b :: ':' :: c :: d :: '\n' :: _ =>
      a.isDigit && b.isDigit && c.isDigit && d.isDigit
  | _ => false

/-- src/services/voiceCommentRefiner.ts `parseTimestampHeader`: splits a body
into the verbatim `## HH:MM\n` header (if present) and the trailing-whitespace
trimmed remaining content. -/
def parseTimestampHeader (body : String) : String × String :=
  match body.data with
  | '#' :: '#' :: ' ' :: a :: b :: ':' :: c :: d :: '\n' :: rest =>
      if a.isDigit && b.isDigit && c.isDigit && d.isDigit then
        (String.mk ['#', '#', ' ', a, b, ':', c, d, '\n'],
         strTrimRight (String.mk rest))
      else ("", strTrimRight body)
  | _ => ("", strTrimRight body)

/-- The body rewrite of `VoiceCommentRefinerService.refineComment`
(lines 38–40): parse, refine the content with the text refiner `refine`,
reassemble `header + refined + "\n"` (just `refined + "\n"` without a
header). -/
def refineCommentBody (refine : String → String) (body : String) : String :=
  let hc := parseTimestampHeader body
  let refined := refine hc.2
  if hc.1 = "" then refined ++ "\n" else hc.1 ++ refined ++ "\n"

-- ── Helper lemmas ─────────────────────────────────────────────────────────────

/-- Every conflict outcome of `claim` is enabled and unclaimed. -/
theorem claimConflict_not_claimed (item? : Option IdemItem) (h : String) :
    (claimConflict item? h).enabled = true ∧ (claimConflict item? h).claimed = false := by
  rcases item? with _ | item
  · simp [claimConflict]
  · simp only [claimConflict]
    split_ifs <;> simp

/-- `parseTimestampHeader` on a well-formed `## HH:MM\n` header: the header is
returned verbatim, the remaining content trailing-trimmed. -/
theorem parseTimestampHeader_header (a b c d : Char) (rest : String)
    (ha : a.isDigit) (hb : b.isDigit) (hc : c.isDigit) (hd : d.isDigit) :
    parseTimestampHeader
        (String.mk ('#' :: '#' :: ' ' :: a :: b :: ':' :: c :: d :: '\n' :: rest.data))
      = (String.mk ['#', '#', ' ', a, b, ':', c, d, '\n'], strTrimRight rest) := by
  simp [parseTimestampHeader, ha, hb, hc, hd, strTrimRight]

/-- `parseTimestampHeader` on a body with no well-formed header: empty header,
trailing-trimmed whole body. -/
theorem parseTimestampHeader_noHeader (body : String)
    (hmm : matchesTimestampHeader body.data = false) :
    parseTimestampHeader body = ("", strTrimRight body) := by
  unfold parseTimestampHeader
  split
  next a b c d rest heq =>
    rw [heq] at hmm
    simp only [matchesTimestampHeader] at hmm
    rw [if_neg]
    intro hcond
    rw [hcond] at hmm
    simp at hmm
  next => rfl

-- ── Claim theorems ────────────────────────────────────────────────────────────

/-- C2: a `claim` call that conflicts with an existing ledger record whose
stored `payload_hash` is present (nonempty) and differs from the supplied hash
returns claimed:false with statusCode 409 and error
"request_id_reused_with_different_payload", regardless of the stored record's
status — the hash-mismatch check precedes the done/processing branches, so the
reuse is never silently accepted. -/
theorem claim_hash_mismatch_409 (item : IdemItem) (h ph : String)
    (hstored : item.payload_hash = some ph) (hne : ph ≠ "") (hdiff : ph ≠ h) :
    claimConflict (some item) h =
      { enabled := true, claimed := false, statusCode := some 409,
        body := some { ok := false,
                       error := some "request_id_reused_with_different_payload" } } := by
  simp [claimConflict, hashMismatch, hstored, hne, hdiff]

theorem claim_hash_mismatch_409_witness :
    claimConflict (some { status := "done", payload_hash := some "hashA" }) "hashB" =
      { enabled := true, claimed := false, statusCode := some 409,
        body := some { ok := false,
                       error := some "request_id_reused_with_different_payload" } } :=
  claim_hash_mismatch_409 { status := "done", payload_hash := some "hashA" }
    "hashB" "hashA" rfl (by decide) (by decide)

/-- C10: when the existing record's `payload_hash` attribute is absent or the
empty string, the hash-mismatch check is skipped (JavaScript truthiness): for
every supplied hash the 409 reuse outcome is impossible and the result is
decided solely by the stored status — a 200 replay when done, 202 otherwise. -/
theorem claim_absent_hash_skips_mismatch (item : IdemItem) (h : String)
    (habs : item.payload_hash = none ∨ item.payload_hash = some "") :
    (claimConflict (some item) h).statusCode ≠ some 409
    ∧ claimConflict (some item) h =
        (if item.status = "done" then
          { enabled := true, claimed := false, statusCode := some 200,
            body := some { ok := true, idempotent := some true,
                           issue_number := item.issue_number,
                           issue_url := item.issue_url,
                           comment_id := item.comment_id } }
        else
          { enabled := true, claimed := false, statusCode := some 202,
            body := some { ok := true, idempotent := some true,
                           status := some (if item.status = "" then "processing"
                                           else item.status) } }) := by
  have hmm : hashMismatch item.payload_hash h = false := by
    rcases habs with h1 | h1 <;> simp [hashMismatch, h1]
  constructor
  · simp only [claimConflict, hmm, Bool.false_eq_true, if_false]
    split <;> simp
  · simp [claimConflict, hmm]

theorem claim_absent_hash_skips_mismatch_witness :
    (claimConflict (some { status := "processing" }) "h1").statusCode ≠ some 409
    ∧ claimConflict (some { status := "processing" }) "h1" =
        (if ("processing" : String) = "done" then
          { enabled := true, claimed := false, statusCode := some 200,
            body := some { ok := true, idempotent := some true } }
        else
          { enabled := true, claimed := false, statusCode := some 202,
            body := some { ok := true, idempotent := some true,
                           status := some (if ("processing" : String) = ""
                                           then "processing" else "processing") } }) :=
  claim_absent_hash_skips_mismatch { status := "processing" } "h1" (Or.inl rfl)

/-- C8: the date key is computed from `captured_at` shifted by the fixed
`JST_OFFSET_MS` (+9 hours) and is independent of any ambient clock or region
(the `now` parameter is unused once `captured_at` is present); in particular
2024-01-14T20:00:00Z (epoch ms 1705262400000) rolls over to "2024-01-15", and
2024-01-14T14:59:59Z (1705244399000) stays "2024-01-14". -/
theorem dateKey_jst_determinism :
    (∀ ms now, getDateKeyJst { captured_at := some ms } now
        = dateKeyOfJstMs (ms + 9 * 60 * 60 * 1000))
    ∧ (∀ ms now now2, getDateKeyJst { captured_at := some ms } now
        = getDateKeyJst { captured_at := some ms } now2)
    ∧ getDateKeyJst { captured_at := some 1705262400000 } 0 = "2024-01-15"
    ∧ getDateKeyJst { captured_at := some 1705244399000 } 0 = "2024-01-14" :=
  ⟨fun _ _ => rfl, fun _ _ _ => rfl, by decide, by decide⟩

/-- C9: `formatEntry` renders `\x7braw:"hello", kind:"idea",
captured_at:"2024-01-15T10:30:00Z"\x7d` (epoch ms 1705314600000) to exactly
"## 19:30\n**[idea]** hello\n"; with `kind` omitted the tag between the header
and the raw text is the empty string (the `**[kind]** ` tag is dropped), and
with `raw` also missing the content after the time-header line is empty. -/
theorem formatEntry_rendering :
    formatEntry { raw := some "hello", kind := some "idea",
                  captured_at := some 1705314600000 } 0
      = "## 19:30\n**[idea]** hello\n"
    ∧ (∀ ms now raw, formatEntry { raw := some raw, captured_at := some ms } now
        = "## " ++ pad2 ((ms + JST_OFFSET_MS) / 3600000 % 24) ++ ":"
            ++ pad2 ((ms + JST_OFFSET_MS) / 60000 % 60) ++ "\n" ++ "" ++ strTrim raw ++ "\n")
    ∧ (∀ ms now, formatEntry { captured_at := some ms } now
        = "## " ++ pad2 ((ms + JST_OFFSET_MS) / 3600000 % 24) ++ ":"
            ++ pad2 ((ms + JST_OFFSET_MS) / 60000 % 60) ++ "\n" ++ "" ++ "" ++ "\n") :=
  ⟨by decide, fun _ _ _ => rfl, fun _ _ => rfl⟩

/-- C7: `refineComment` preserves a leading `## HH:MM` timestamp header
verbatim and replaces only the content beneath it: a body starting with such a
header line becomes the header followed by the refiner's output on the
trailing-trimmed content and a single trailing newline, and a body with no
such header becomes exactly the refined text followed by a newline. -/
theorem refineComment_header_preservation :
    (∀ (f : String → String) (a b c d : Char) (rest : String),
        a.isDigit → b.isDigit → c.isDigit → d.isDigit →
        refineCommentBody f
            (String.mk ('#' :: '#' :: ' ' :: a :: b :: ':' :: c :: d :: '\n' :: rest.data))
          = String.mk ['#', '#', ' ', a, b, ':', c, d, '\n']
              ++ f (strTrimRight rest) ++ "\n")
    ∧ (∀ (f : String → String) (body : String),
        matchesTimestampHeader body.data = false →
        refineCommentBody f body = f (strTrimRight body) ++ "\n") := by
  constructor
  · intro f a b c d rest ha hb hc hd
    have hne : String.mk ['#', '#', ' ', a, b, ':', c, d, '\n'] ≠ "" := by
      intro hcontra
      simpa using congrArg (fun s => s.data.length) hcontra
    simp [refineCommentBody, parseTimestampHeader_header a b c d rest ha hb hc hd, hne]
  · intro f body hmm
    simp [refineCommentBody, parseTimestampHeader_noHeader body hmm]

theorem refineComment_header_preservation_witness :
    refineCommentBody (fun _ => "polished text") "## 22:45\noriginal voice\n"
      = "## 22:45\npolished text\n" := by
  have h := refineComment_header_preservation.1 (fun _ => "polished text")
    '2' '2' '4' '5' "original voice\n" (by decide) (by decide) (by decide) (by decide)
  have e1 : String.mk ('#' :: '#' :: ' ' :: '2' :: '2' :: ':' :: '4' :: '5' :: '\n'
      :: ("original voice\n".data)) = "## 22:45\noriginal voice\n" := by decide
  rw [e1] at h
  rw [h]
  decide

-- ── Orchestrator helper lemmas and witness fixtures ───────────────────────────

/-- The downstream trace always starts with the credential call. -/
theorem runDownstream_head (env : Env) :
    ∃ t, (runDownstream env).2 = Event.auth :: t := by
  rcases env with ⟨cf, tok, find, create, getIss, addC, mfo, qf⟩
  rcases tok with er | tok
  case error => exact ⟨[], rfl⟩
  case ok =>
    rcases find with er2 | found
    case error => exact ⟨[Event.findIssue], rfl⟩
    case ok =>
      rcases hst : issueStep found ⟨cf, .ok tok, .ok found, create, getIss, addC, mfo, qf⟩
        with ⟨r, evs⟩
      rcases r with er3 | issue
      · exact ⟨Event.findIssue :: evs, by simp [runDownstream, hst]⟩
      · rcases addC with er5 | cm
        · exact ⟨Event.findIssue :: (evs ++ [Event.addComment]),
            by simp [runDownstream, hst]⟩
        · exact ⟨Event.findIssue :: (evs ++ [Event.addComment]),
            by simp [runDownstream, hst]⟩

/-- The downstream trace only contains the five downstream call events. -/
theorem runDownstream_events (env : Env) :
    ∀ e ∈ (runDownstream env).2, e = Event.auth ∨ e = Event.findIssue
      ∨ e = Event.createIssue ∨ e = Event.getIssue ∨ e = Event.addComment := by
  rcases env with ⟨cf, tok, find, create, getIss, addC, mfo, qf⟩
  intro e he
  rcases tok with er | tok
  case error => simp [runDownstream] at he; simp [he]
  case ok =>
    rcases find with er2 | found
    case error => simp [runDownstream] at he; tauto
    case ok =>
      rcases found with _ | issue
      case none =>
        rcases create with er3 | cIssue <;> rcases addC with er5 | cm <;>
          (simp [runDownstream, issueStep] at he; tauto)
      case some =>
        rcases issue with ⟨num, hurl, title⟩
        rcases hurl with _ | u
        case none =>
          rcases getIss with er4 | gIss <;> rcases addC with er5 | cm <;>
            (simp [runDownstream, issueStep, strOptTruthy] at he; tauto)
        case some =>
          by_cases hu : u = ""
          · subst hu
            rcases getIss with er4 | gIss <;> rcases addC with er5 | cm <;>
              (simp [runDownstream, issueStep, strOptTruthy] at he; tauto)
          · rcases addC with er5 | cm <;>
              (simp [runDownstream, issueStep, strOptTruthy, hu] at he; tauto)

-- Witness fixtures: a concrete configuration, environment and payload.

/-- A daily issue as the GitHub search returns it. -/
def fixtureIssue : GitHubIssue := { number := 42, html_url := some "https://u" }

/-- An environment where every downstream call succeeds. -/
def fixtureEnv : Env :=
  { findResult := .ok (some fixtureIssue), addCommentResult := .ok { id := 99 } }

/-- A configuration with ledger table and queue configured. -/
def fixtureCfg : ThoughtLogConfig :=
  { defaultLabels := "thoughtlog", tableName := some "t", queueConfigured := true }

/-- A configuration with a ledger table but no queue (and, in the current
architecture, no refiner anywhere in the create path). -/
def fixtureCfgNoQueue : ThoughtLogConfig :=
  { defaultLabels := "thoughtlog", tableName := some "t", queueConfigured := false }

/-- A plain text payload captured at 2024-01-15T10:30:00Z. -/
def fixturePayload : Payload :=
  { request_id := some "r1", raw := some "hello", captured_at := some 1705314600000 }

/-- The same payload marked as voice-captured. -/
def fixtureVoice : Payload := { fixturePayload with source := some "voice" }

/-- The content fingerprint of `fixturePayload` under `fixtureCfg`. -/
def fixtureHash : String :=
  payloadHash (getDateKeyJst fixturePayload 0) (formatEntry fixturePayload 0)
    (parseLabels "thoughtlog" none)

/-- The ledger record after a successful claim of `fixturePayload`. -/
def fixtureProcessing : IdemItem :=
  { status := "processing", payload_hash := some fixtureHash,
    created_at := some 0, ttl := some 1209600 }

/-- The ledger record after `markDone` of the fixture run. -/
def fixtureDone : IdemItem :=
  { status := "done", payload_hash := some fixtureHash, issue_number := some 42,
    issue_url := some "https://u", comment_id := some 99,
    created_at := some 0, ttl := some 1209600 }

/-- The ledger contents after the first fixture `createEntry` call. -/
def fixtureStore2 : Store := [("r1", fixtureDone), ("r1", fixtureProcessing)]

/-- C4: with no backing store configured (table name absent) the ledger is
disabled: `claim` returns enabled:false, claimed:true leaving the store
untouched, `markDone` and `markFailed` are no-ops, and `createEntry` leaves
the store unchanged while always proceeding to downstream work on a valid
request_id — so a repeated call behaves exactly like the first (no
deduplication). -/
theorem disabled_ledger_passthrough :
    (∀ ttlDays now store rid h, claimOp none ttlDays now store rid h
        = ({ enabled := false, claimed := true }, store))
    ∧ (∀ store rid n u c, markDoneOp none store rid n u c = store)
    ∧ (∀ wOk store rid msg, markFailedOp none wOk store rid msg = store)
    ∧ (∀ cfg env now store p, cfg.tableName = none →
        (createEntry cfg env now store p).2.2 = store
        ∧ (strTrim (p.request_id.getD "") ≠ "" →
            Event.auth ∈ (createEntry cfg env now store p).2.1)
        ∧ createEntry cfg env now ((createEntry cfg env now store p).2.2) p
            = createEntry cfg env now store p) := by
  refine ⟨fun _ _ _ _ _ => rfl, fun _ _ _ _ _ => rfl, fun _ _ _ _ => rfl, ?_⟩
  intro cfg env now store p htbl
  have hmain : (createEntry cfg env now store p).2.2 = store
      ∧ (strTrim (p.request_id.getD "") ≠ "" →
          Event.auth ∈ (createEntry cfg env now store p).2.1) := by
    by_cases hrid : strTrim (p.request_id.getD "") = ""
    · constructor
      · simp [createEntry, hrid]
      · intro hc; exact absurd hrid hc
    · rcases hrd : runDownstream env with ⟨r, evs⟩
      obtain ⟨t, ht⟩ := runDownstream_head env
      rw [hrd] at ht
      simp only at ht
      rcases hcf : env.claimFails with _ | msg0
      · rcases r with msg | ⟨issue, comment⟩
        · constructor
          · simp [createEntry, hrid, htbl, hcf, claimOp, markFailedOp, hrd]
          · intro _
            simp [createEntry, hrid, htbl, hcf, claimOp, hrd, ht]
        · constructor
          · simp [createEntry, hrid, htbl, hcf, claimOp, markDoneOp, hrd]
          · intro _
            simp [createEntry, hrid, htbl, hcf, claimOp, hrd, ht]
      · rcases r with msg | ⟨issue, comment⟩
        · constructor
          · simp [createEntry, hrid, htbl, hcf, claimOp, markFailedOp, hrd]
          · intro _
            simp [createEntry, hrid, htbl, hcf, claimOp, hrd, ht]
        · constructor
          · simp [createEntry, hrid, htbl, hcf, claimOp, markDoneOp, hrd]
          · intro _
            simp [createEntry, hrid, htbl, hcf, claimOp, hrd, ht]
  exact ⟨hmain.1, hmain.2, by rw [hmain.1]⟩

theorem disabled_ledger_passthrough_witness :
    (createEntry {} fixtureEnv 0 [] fixturePayload).2.2 = []
    ∧ Event.auth ∈ (createEntry {} fixtureEnv 0 [] fixturePayload).2.1
    ∧ createEntry {} fixtureEnv 0 ((createEntry {} fixtureEnv 0 [] fixturePayload).2.2)
        fixturePayload
      = createEntry {} fixtureEnv 0 [] fixturePayload := by
  obtain ⟨h1, h2, h3⟩ :=
    disabled_ledger_passthrough.2.2.2 {} fixtureEnv 0 [] fixturePayload rfl
  exact ⟨h1, h2 (by decide), h3⟩

/-- C5 counterexample: a payload with source "voice", a valid request_id and
no refinement facility configured anywhere in the create path (no queue; the
current `createEntry` has no refiner dependency at all) is NOT rejected: it
produces a created outcome and the ledger claim IS called, contradicting the
claim that such a payload fails validation before any side effect. -/
theorem voice_without_refiner_not_rejected_cex :
    fixtureVoice.source = some "voice"
    ∧ fixtureCfgNoQueue.queueConfigured = false
    ∧ (createEntry fixtureCfgNoQueue fixtureEnv 0 [] fixtureVoice).1
        = .ok (.created "2024-01-15" 42 "https://u" 99)
    ∧ Event.claim ∈ (createEntry fixtureCfgNoQueue fixtureEnv 0 [] fixtureVoice).2.1 :=
  ⟨rfl, rfl, by decide, by decide⟩

/-- C5 (amended): a payload whose request_id is missing or trims to the empty
string is rejected with a validation error before any side effect and with no
ledger interaction (empty trace, unchanged store); a payload with source
"voice" while no queue/refiner is configured is NOT rejected — it proceeds
through the normal path (the ledger claim is called) and merely never
enqueues a refinement message. -/
theorem createEntry_validation_amended :
    (∀ cfg env now store p, strTrim (p.request_id.getD "") = "" →
        createEntry cfg env now store p
          = (.error "request_id must be a non-empty string", [], store))
    ∧ (∀ cfg env now store p, p.source = some "voice" → cfg.queueConfigured = false →
        strTrim (p.request_id.getD "") ≠ "" →
        Event.claim ∈ (createEntry cfg env now store p).2.1
        ∧ Event.sendMessage ∉ (createEntry cfg env now store p).2.1) := by
  constructor
  · intro cfg env now store p hrid
    simp [createEntry, hrid]
  · intro cfg env now store p hsrc hq hrid
    rcases hrd : runDownstream env with ⟨r, evs⟩
    have hsend : Event.sendMessage ∉ evs := by
      intro hmem
      have h5 := runDownstream_events env Event.sendMessage (by rw [hrd]; exact hmem)
      simp at h5
    rcases htbl : cfg.tableName with _ | tbl
    · rcases r with msg | ⟨issue, comment⟩
      · constructor
        · simp [createEntry, hrid, htbl, claimOp, hrd]
        · simp [createEntry, hrid, htbl, claimOp, hrd, hq, hsend]
      · constructor
        · simp [createEntry, hrid, htbl, claimOp, hrd, hq]
        · simp [createEntry, hrid, htbl, claimOp, hrd, hq, hsend]
    · rcases hcf : env.claimFails with _ | msg0
      · rcases hlook : store.lookup (strTrim (p.request_id.getD "")) with _ | item
        · rcases r with msg | ⟨issue, comment⟩
          · constructor
            · simp [createEntry, hrid, htbl, hcf, claimOp, hlook, hrd]
            · simp [createEntry, hrid, htbl, hcf, claimOp, hlook, hrd, hq, hsend]
          · constructor
            · simp [createEntry, hrid, htbl, hcf, claimOp, hlook, hrd, hq]
            · simp [createEntry, hrid, htbl, hcf, claimOp, hlook, hrd, hq, hsend]
        · have hcc := claimConflict_not_claimed (some item)
            (payloadHash (getDateKeyJst p now) (formatEntry p now)
              (parseLabels cfg.defaultLabels p.labels))
          constructor
          · simp [createEntry, hrid, htbl, hcf, claimOp, hlook, hcc.1, hcc.2]
          · simp [createEntry, hrid, htbl, hcf, claimOp, hlook, hcc.1, hcc.2]
      · constructor
        · simp [createEntry, hrid, htbl, hcf]
        · simp [createEntry, hrid, htbl, hcf]

theorem createEntry_validation_amended_witness :
    createEntry fixtureCfgNoQueue fixtureEnv 0 [] { request_id := some "  " }
      = (.error "request_id must be a non-empty string", [], [])
    ∧ Event.claim ∈ (createEntry fixtureCfgNoQueue fixtureEnv 0 [] fixtureVoice).2.1
    ∧ Event.sendMessage ∉ (createEntry fixtureCfgNoQueue fixtureEnv 0 [] fixtureVoice).2.1 := by
  obtain ⟨h2, h3⟩ := createEntry_validation_amended.2 fixtureCfgNoQueue fixtureEnv 0 []
    fixtureVoice rfl rfl (by decide)
  exact ⟨createEntry_validation_amended.1 fixtureCfgNoQueue fixtureEnv 0 []
    { request_id := some "  " } (by decide), h2, h3⟩

/-- C6: for a voice payload with a configured queue, whenever `markDone`
happened (the downstream steps succeeded), the outcome is created, `markFailed`
was never called, and the trace splits as l1 ++ markDone :: l2 with the queue
`sendMessage` strictly after `markDone` and never before it — and this holds
for every value of `queueFails`, so a queue failure is swallowed: it neither
prevents the created outcome nor triggers `markFailed`. -/
theorem voice_markDone_before_queue (cfg : ThoughtLogConfig) (env : Env) (now : Nat)
    (store : Store) (p : Payload)
    (hsrc : p.source = some "voice") (hq : cfg.queueConfigured = true)
    (hmd : Event.markDone ∈ (createEntry cfg env now store p).2.1) :
    (∃ d n u c, (createEntry cfg env now store p).1 = .ok (.created d n u c))
    ∧ Event.markFailed ∉ (createEntry cfg env now store p).2.1
    ∧ ∃ l1 l2, (createEntry cfg env now store p).2.1 = l1 ++ Event.markDone :: l2
        ∧ Event.sendMessage ∈ l2 ∧ Event.sendMessage ∉ l1 ∧ Event.markDone ∉ l1 := by
  by_cases hrid : strTrim (p.request_id.getD "") = ""
  · simp [createEntry, hrid] at hmd
  · rcases hrd : runDownstream env with ⟨r, evs⟩
    have hnotin : ∀ e0, e0 = Event.markDone ∨ e0 = Event.sendMessage ∨ e0 = Event.markFailed →
        e0 ∉ evs := by
      intro e0 he0 hmem
      have h5 := runDownstream_events env e0 (by rw [hrd]; exact hmem)
      rcases he0 with h | h | h <;> subst h <;> simp at h5
    have hmdevs := hnotin Event.markDone (Or.inl rfl)
    have hsendevs := hnotin Event.sendMessage (Or.inr (Or.inl rfl))
    have hmfevs := hnotin Event.markFailed (Or.inr (Or.inr rfl))
    rcases htbl : cfg.tableName with _ | tbl
    · rcases r with msg | ⟨issue, comment⟩
      · simp [createEntry, hrid, htbl, claimOp, hrd, hmdevs] at hmd
      · refine ⟨⟨getDateKeyJst p now, issue.number, issue.html_url.getD "", comment.id,
          by simp [createEntry, hrid, htbl, claimOp, hrd]⟩, ?_, ?_⟩
        · simp [createEntry, hrid, htbl, claimOp, hrd, hsrc, hq, hmfevs]
        · refine ⟨Event.claim :: evs, [Event.sendMessage], ?_, by simp, ?_, ?_⟩
          · simp [createEntry, hrid, htbl, claimOp, hrd, hsrc, hq]
          · simp [hsendevs]
          · simp [hmdevs]
    · rcases hcf : env.claimFails with _ | msg0
      · rcases hlook : store.lookup (strTrim (p.request_id.getD "")) with _ | item
        · rcases r with msg | ⟨issue, comment⟩
          · simp [createEntry, hrid, htbl, hcf, claimOp, hlook, hrd, hmdevs] at hmd
          · refine ⟨⟨getDateKeyJst p now, issue.number, issue.html_url.getD "", comment.id,
              by simp [createEntry, hrid, htbl, hcf, claimOp, hlook, hrd]⟩, ?_, ?_⟩
            · simp [createEntry, hrid, htbl, hcf, claimOp, hlook, hrd, hsrc, hq, hmfevs]
            · refine ⟨Event.claim :: evs, [Event.sendMessage], ?_, by simp, ?_, ?_⟩
              · simp [createEntry, hrid, htbl, hcf, claimOp, hlook, hrd, hsrc, hq]
              · simp [hsendevs]
              · simp [hmdevs]
        · have hcc := claimConflict_not_claimed (some item)
            (payloadHash (getDateKeyJst p now) (formatEntry p now)
              (parseLabels cfg.defaultLabels p.labels))
          simp [createEntry, hrid, htbl, hcf, claimOp, hlook, hcc.1, hcc.2] at hmd
      · simp [createEntry, hrid, htbl, hcf] at hmd

/-- The all-success environment except that the queue send rejects. -/
def fixtureEnvQueueFail : Env := { fixtureEnv with queueFails := true }

/-- C6 witness at a concrete input whose queue send FAILS: the outcome is
still created and `markFailed` is absent. -/
theorem voice_markDone_before_queue_witness :
    (∃ d n u c, (createEntry fixtureCfg fixtureEnvQueueFail 0 [] fixtureVoice).1
        = .ok (.created d n u c))
    ∧ Event.markFailed ∉ (createEntry fixtureCfg fixtureEnvQueueFail 0 [] fixtureVoice).2.1
    ∧ ∃ l1 l2, (createEntry fixtureCfg fixtureEnvQueueFail 0 [] fixtureVoice).2.1
        = l1 ++ Event.markDone :: l2
        ∧ Event.sendMessage ∈ l2 ∧ Event.sendMessage ∉ l1 ∧ Event.markDone ∉ l1 :=
  voice_markDone_before_queue fixtureCfg fixtureEnvQueueFail 0 [] fixtureVoice rfl rfl
    (by decide)

/-- C3: when the ledger claim succeeds (enabled table, free request_id, no
store error from claim itself) and the downstream pipeline (credential
issuance, issue find/create/fetch or comment creation) fails with `msg`, the
orchestrator calls `markFailed` and rethrows the original error; with a
working ledger write the record becomes status "failed" with the error
truncated to 900 characters, and when the `markFailed` write itself fails the
error is swallowed: the original error is still the result and the record is
left as it was ("processing"). -/
theorem downstream_failure_marks_failed (cfg : ThoughtLogConfig) (env : Env) (now : Nat)
    (store : Store) (p : Payload) (tbl msg : String)
    (hrid : strTrim (p.request_id.getD "") ≠ "")
    (htbl : cfg.tableName = some tbl)
    (hcf : env.claimFails = none)
    (hfree : store.lookup (strTrim (p.request_id.getD "")) = none)
    (hfail : (runDownstream env).1 = .error msg) :
    (createEntry cfg env now store p).1 = .error msg
    ∧ Event.markFailed ∈ (createEntry cfg env now store p).2.1
    ∧ (env.markFailedOk = true →
        ((createEntry cfg env now store p).2.2).lookup (strTrim (p.request_id.getD ""))
          = some { status := "failed",
                   payload_hash := some (payloadHash (getDateKeyJst p now)
                     (formatEntry p now) (parseLabels cfg.defaultLabels p.labels)),
                   error := some (strTake msg 900),
                   created_at := some now,
                   ttl := some (now + cfg.ttlDays * 24 * 60 * 60) })
    ∧ (env.markFailedOk = false →
        ((createEntry cfg env now store p).2.2).lookup (strTrim (p.request_id.getD ""))
          = some { status := "processing",
                   payload_hash := some (payloadHash (getDateKeyJst p now)
                     (formatEntry p now) (parseLabels cfg.defaultLabels p.labels)),
                   created_at := some now,
                   ttl := some (now + cfg.ttlDays * 24 * 60 * 60) }) := by
  rcases hrd : runDownstream env with ⟨r, evs⟩
  rw [hrd] at hfail
  simp only at hfail
  have hfree2 : List.lookup (strTrim (p.request_id.getD "")) store = none := hfree
  rcases r with m | pair
  · simp only [Except.error.injEq] at hfail
    subst hfail
    refine ⟨?_, ?_, ?_, ?_⟩
    · simp [createEntry, hrid, htbl, hcf, claimOp, hfree, hrd]
    · simp [createEntry, hrid, htbl, hcf, claimOp, hfree, hrd]
    · intro hmf
      simp [createEntry, hrid, htbl, hcf, claimOp, hfree, hfree2, hrd, markFailedOp, hmf,
        upsertBase, Store.lookup, List.lookup]
    · intro hmf
      simp [createEntry, hrid, htbl, hcf, claimOp, hfree, hfree2, hrd, markFailedOp, hmf,
        upsertBase, Store.lookup, List.lookup]
  · simp at hfail

/-- The all-success environment except that comment creation fails. -/
def fixtureEnvCommentFail : Env := { fixtureEnv with addCommentResult := .error "gh error" }

theorem downstream_failure_marks_failed_witness :
    (createEntry fixtureCfg fixtureEnvCommentFail 0 [] fixturePayload).1 = .error "gh error"
    ∧ Event.markFailed ∈ (createEntry fixtureCfg fixtureEnvCommentFail 0 [] fixturePayload).2.1
    ∧ ((createEntry fixtureCfg fixtureEnvCommentFail 0 [] fixturePayload).2.2).lookup "r1"
        = some { status := "failed", payload_hash := some fixtureHash,
                 error := some (strTake "gh error" 900),
                 created_at := some 0, ttl := some 1209600 } := by
  obtain ⟨h1, h2, h3, h4⟩ := downstream_failure_marks_failed fixtureCfg fixtureEnvCommentFail
    0 [] fixturePayload "t" "gh error" (by decide) rfl rfl rfl (by decide)
  exact ⟨h1, h2, h3 rfl⟩

/-- Inversion: a created outcome with an enabled ledger implies a valid
request_id and a ledger record in status "done" holding the content
fingerprint and the returned issue number, issue url and comment id. -/
theorem createEntry_created_done (cfg : ThoughtLogConfig) (env : Env) (now : Nat)
    (store : Store) (p : Payload) (tbl d : String) (n : Nat) (u : String) (c : Nat)
    (tr : List Event) (store2 : Store)
    (htbl : cfg.tableName = some tbl)
    (h1 : createEntry cfg env now store p = (.ok (.created d n u c), tr, store2)) :
    strTrim (p.request_id.getD "") ≠ ""
    ∧ store2.lookup (strTrim (p.request_id.getD "")) = some
        { status := "done",
          payload_hash := some (payloadHash (getDateKeyJst p now) (formatEntry p now)
            (parseLabels cfg.defaultLabels p.labels)),
          issue_number := some n, issue_url := some u, comment_id := some c,
          created_at := some now, ttl := some (now + cfg.ttlDays * 24 * 60 * 60) } := by
  by_cases hrid : strTrim (p.request_id.getD "") = ""
  · simp [createEntry, hrid] at h1
  · refine ⟨hrid, ?_⟩
    rcases hcf : env.claimFails with _ | msg0
    on_goal 2 => simp [createEntry, hrid, htbl, hcf] at h1
    rcases hlook : store.lookup (strTrim (p.request_id.getD "")) with _ | item
    on_goal 2 =>
      have hcc := claimConflict_not_claimed (some item)
        (payloadHash (getDateKeyJst p now) (formatEntry p now)
          (parseLabels cfg.defaultLabels p.labels))
      simp [createEntry, hrid, htbl, hcf, claimOp, hlook, hcc.1, hcc.2] at h1
    rcases hrd : runDownstream env with ⟨r, evs⟩
    rcases r with msg | ⟨issue, comment⟩
    · simp [createEntry, hrid, htbl, hcf, claimOp, hlook, hrd] at h1
    · have hlook2 : List.lookup (strTrim (p.request_id.getD "")) store = none := hlook
      simp [createEntry, hrid, htbl, hcf, claimOp, hlook, hlook2, hrd, markDoneOp, upsertBase,
        Store.lookup, List.lookup] at h1 ⊢
      obtain ⟨⟨hd0, hn0, hu0, hc0⟩, htr0, hst0⟩ := h1
      subst hst0
      simp [List.lookup, hn0, hu0, hc0]

/-- C1: with the ledger enabled, once a `createEntry` call returned a created
outcome, a second call with the same payload, configuration and clock (hence
the same computed dateKey, rendered entry, labels and payloadHash) returns an
idempotent outcome with statusCode 200 whose body carries the issue_number,
issue_url and comment_id recorded by the first call, performs no downstream
calls (its trace is exactly the single claim event, whatever the second
environment holds) and leaves the store unchanged. -/
theorem createEntry_idempotent_replay (cfg : ThoughtLogConfig) (env env2 : Env)
    (now : Nat) (store : Store) (p : Payload) (tbl d : String) (n : Nat) (u : String)
    (c : Nat) (tr : List Event) (store2 : Store)
    (htbl : cfg.tableName = some tbl) (hcf2 : env2.claimFails = none)
    (h1 : createEntry cfg env now store p = (.ok (.created d n u c), tr, store2)) :
    createEntry cfg env2 now store2 p =
      (.ok (.idempotent 200
          ({ ok := true, idempotent := some true, issue_number := some n,
             issue_url := some u, comment_id := some c } : IdemBody)),
       [Event.claim], store2) := by
  obtain ⟨hrid, hlook⟩ :=
    createEntry_created_done cfg env now store p tbl d n u c tr store2 htbl h1
  simp [createEntry, hrid, htbl, hcf2, claimOp, hlook, claimConflict, hashMismatch]

/-- C1 witness: the concrete fixture run replayed against the store the first
call produced. -/
theorem createEntry_idempotent_replay_witness :
    createEntry fixtureCfg fixtureEnv 0 fixtureStore2 fixturePayload =
      (.ok (.idempotent 200
          ({ ok := true, idempotent := some true, issue_number := some 42,
             issue_url := some "https://u", comment_id := some 99 } : IdemBody)),
       [Event.claim], fixtureStore2) :=
  createEntry_idempotent_replay fixtureCfg fixtureEnv fixtureEnv 0 [] fixturePayload
    "t" "2024-01-15" 42 "https://u" 99
    [Event.claim, Event.auth, Event.findIssue, Event.addComment, Event.markDone]
    fixtureStore2 rfl rfl (by decide)

end ThoughtLog
